import Mathlib

/-!
# Verification of the DooTask MCP operation bridge (`ConnectionManager` + `OperationWebSocket`)

Shallow embedding of `src/unnamed/part_003` (class `ConnectionManager`) and the
operation-socket gateway in `src/unnamed/part_002` (class `OperationWebSocket`).

Modelling conventions:
* JavaScript `Map<string, V>` objects become association lists with the usual
  `get` / `set` / `delete` operations (`mget` / `mset` / `mdel`). In every
  reachable state keys are unique, so `mdel` (which drops all occurrences of a
  key) coincides with `Map.delete`.
* Node timers become explicit state: an armed timer is a `TimerRec` carrying a
  fresh numeric id, the request id its callback captured, the time it was armed
  and its delay. `setTimeout` conses a record and bumps the id counter,
  `clearTimeout` removes the record, and a timer can fire (`fireTimeout`) only
  while its record is still present and the current time has passed
  `armedAt + delay` — exactly the setTimeout contract.
* Promise resolution becomes data: each operation returns, besides the new
  state, the ordered list of `MicroEvent`s it performed, in source-statement
  order; `MicroEvent.settle reqId s` records the resolve/reject callback of
  the pending request `reqId` being invoked with settlement `s`.
* The `unknown` JSON payloads that the bridge never inspects are modelled by a
  small concrete `JValue` type.
* Throwing an error synchronously is modelled by the `SendOutcome.thrown`
  constructor; the state returned alongside it is the state at the throw.
-/

/-- Model of the opaque JSON values (`unknown` in the TypeScript source) that
are carried around but never inspected by the bridge. -/
inductive JValue where
  | null
  | bool (b : Bool)
  | num (n : Int)
  | str (s : String)
deriving DecidableEq, Repr

/-! ## Association-list model of `Map<string, V>` -/

/-- `Map.get`: first binding of the key, if any. -/
def mget {β : Type} (m : List (String × β)) (k : String) : Option β :=
  match m with
  | [] => none
  | (k₁, v) :: rest => if k₁ = k then some v else mget rest k

/-- `Map.set`: replace the binding in place if the key is present, otherwise
append it (JS maps keep insertion order). -/
def mset {β : Type} (m : List (String × β)) (k : String) (v : β) :
    List (String × β) :=
  match m with
  | [] => [(k, v)]
  | (k₁, v₁) :: rest => if k₁ = k then (k, v) :: rest else (k₁, v₁) :: mset rest k v

/-- `Map.delete`: drop the key's bindings (all of them; reachable states have
unique keys, where this is exactly `Map.delete`). -/
def mdel {β : Type} (m : List (String × β)) (k : String) : List (String × β) :=
  match m with
  | [] => []
  | (k₁, v₁) :: rest => if k₁ = k then mdel rest k else (k₁, v₁) :: mdel rest k

theorem mget_mset_self {β : Type} (m : List (String × β)) (k : String) (v : β) :
    mget (mset m k v) k = some v := by
  induction m with
  | nil => simp [mget, mset]
  | cons p rest ih =>
    obtain ⟨k₁, v₁⟩ := p
    by_cases h : k₁ = k <;> simp [mget, mset, h, ih]

theorem mget_mset_ne {β : Type} (m : List (String × β)) (k k₂ : String) (v : β)
    (h : k₂ ≠ k) : mget (mset m k v) k₂ = mget m k₂ := by
  have hne : k ≠ k₂ := fun h₁ => h h₁.symm
  induction m with
  | nil => simp [mget, mset, hne]
  | cons p rest ih =>
    obtain ⟨k₁, v₁⟩ := p
    by_cases h₁ : k₁ = k
    · subst h₁
      have h₂ : k₁ ≠ k₂ := fun h₃ => h h₃.symm
      simp [mget, mset, h₂, hne]
    · simp only [mset, if_neg h₁]
      by_cases h₂ : k₁ = k₂ <;> simp [mget, h₂, ih]

theorem mget_mdel_self {β : Type} (m : List (String × β)) (k : String) :
    mget (mdel m k) k = none := by
  induction m with
  | nil => simp [mget, mdel]
  | cons p rest ih =>
    obtain ⟨k₁, v₁⟩ := p
    by_cases h : k₁ = k <;> simp [mget, mdel, h, ih]

theorem mget_mdel_ne {β : Type} (m : List (String × β)) (k k₂ : String)
    (h : k₂ ≠ k) : mget (mdel m k) k₂ = mget m k₂ := by
  induction m with
  | nil => simp [mdel]
  | cons p rest ih =>
    obtain ⟨k₁, v₁⟩ := p
    by_cases h₁ : k₁ = k
    · subst h₁
      have h₂ : k₁ ≠ k₂ := fun h₃ => h h₃.symm
      simp [mget, mdel, h₂, ih]
    · simp only [mdel, if_neg h₁]
      by_cases h₂ : k₁ = k₂ <;> simp [mget, h₂, ih]

theorem mdel_mset_self {β : Type} (m : List (String × β)) (k : String) (v : β) :
    mdel (mset m k v) k = mdel m k := by
  induction m with
  | nil => simp [mset, mdel]
  | cons p rest ih =>
    obtain ⟨k₁, v₁⟩ := p
    by_cases h : k₁ = k <;> simp [mset, mdel, h, ih]

/-! ## Timers -/

/-- One armed Node timer: its handle (`id`), the request id captured by its
callback, the instant it was armed and its delay in milliseconds. -/
structure TimerRec where
  id : Nat
  reqId : String
  armedAt : Nat
  delay : Nat
deriving DecidableEq, Repr

/-- `clearTimeout`: remove the timer with this handle from the armed set. -/
def clearTimer (ts : List TimerRec) (tid : Nat) : List TimerRec :=
  match ts with
  | [] => []
  | t :: rest => if t.id = tid then clearTimer rest tid else t :: clearTimer rest tid

/-- Look up an armed timer by handle. -/
def findTimer (ts : List TimerRec) (tid : Nat) : Option TimerRec :=
  match ts with
  | [] => none
  | t :: rest => if t.id = tid then some t else findTimer rest tid

theorem findTimer_clearTimer_self (ts : List TimerRec) (tid : Nat) :
    findTimer (clearTimer ts tid) tid = none := by
  induction ts with
  | nil => simp [findTimer, clearTimer]
  | cons t rest ih =>
    by_cases h : t.id = tid <;> simp [findTimer, clearTimer, h, ih]

theorem findTimer_clearTimer_ne (ts : List TimerRec) (tid tid₂ : Nat)
    (h : tid₂ ≠ tid) : findTimer (clearTimer ts tid) tid₂ = findTimer ts tid₂ := by
  induction ts with
  | nil => simp [clearTimer]
  | cons t rest ih =>
    by_cases h₁ : t.id = tid
    · have h₂ : tid ≠ tid₂ := fun h₃ => h h₃.symm
      simp [clearTimer, findTimer, h₁, h₂, ih]
    · simp only [clearTimer, if_neg h₁]
      by_cases h₂ : t.id = tid₂ <;> simp [findTimer, h₂, ih]

/-! ## Data model of the ConnectionManager (`src/unnamed/part_003`) -/

/-- The request frame `{ id, type: 'request', action, payload }` serialized by
`sendRequest` (part_003 lines 91–96). -/
structure RequestFrame where
  id : String
  type : String
  action : String
  payload : JValue
deriving DecidableEq, Repr

/-- A frame the server writes on a session socket: a request frame from
`sendRequest`, or the `{type: 'pong'}` heartbeat reply from the gateway. -/
inductive OutFrame where
  | request (f : RequestFrame)
  | pong
deriving DecidableEq, Repr

/-- `ws.OPEN` readyState constant of the `ws` library. -/
def WS_OPEN : Nat := 1

/-- Model of a `WebSocket` handle: its `readyState`, the frames successfully
written on it, and its disposition for the next `ws.send` (`none` = the write
succeeds, `some cause` = the send callback is invoked with an error whose
`message` is `cause`). -/
structure WSocket where
  readyState : Nat
  sent : List OutFrame
  sendError : Option String
deriving DecidableEq, Repr

/-- `interface ConnectionInfo` (part_003 lines 11–16). -/
structure ConnectionInfo where
  ws : WSocket
  userId : Int
  token : String
  createdAt : Nat
deriving DecidableEq, Repr

/-- `interface PendingRequest` (part_003 lines 5–9). The `resolve`/`reject`
callbacks are not data in the model: invoking them is recorded as a
`MicroEvent.settle` event keyed by the request id. Only the timer handle is
kept as state. -/
structure PendingRequest where
  timer : Nat
deriving DecidableEq, Repr

/-- How a pending result gets settled: the stored `resolve` callback invoked
with the response's `data`, or the stored `reject` callback invoked with an
error carrying the given message. -/
inductive Settlement where
  | resolve (data : Option JValue)
  | reject (errMsg : String)
deriving DecidableEq, Repr

/-- One primitive effect of an operation, in source-statement order:
arming/clearing a timer, inserting/removing a pending-table entry, calling
`ws.send` with a request frame, or settling a pending result. -/
inductive MicroEvent where
  | armTimer (tid : Nat)
  | insertPending (reqId : String)
  | sendCall (f : RequestFrame)
  | clearTimerEv (tid : Nat)
  | removePending (reqId : String)
  | settle (reqId : String) (s : Settlement)
deriving DecidableEq, Repr

/-- The mutable state of one `ConnectionManager` instance (part_003 lines
18–21: the `connections` and `pendingRequests` maps and the `requestTimeout`
field), together with the armed-timer state of the Node runtime
(`armedTimers`, plus `nextTimer` for fresh timer handles). -/
structure CMState where
  connections : List (String × ConnectionInfo)
  pendingRequests : List (String × PendingRequest)
  requestTimeout : Nat
  armedTimers : List TimerRec
  nextTimer : Nat
deriving DecidableEq, Repr

/-- Default of the `requestTimeout` constructor parameter (part_003 line 25). -/
def defaultRequestTimeout : Nat := 30000

/-- `new ConnectionManager(logger, requestTimeout)` (part_003 lines 23–28):
empty maps, the given timeout. -/
def initCM (requestTimeout : Nat) : CMState :=
  { connections := []
    pendingRequests := []
    requestTimeout := requestTimeout
    armedTimers := []
    nextTimer := 0 }

/-- `new ConnectionManager(logger)` with the defaulted timeout. -/
def initCMDefault : CMState := initCM defaultRequestTimeout

/-! ## ConnectionManager operations -/

/-- `register(sessionId, ws, userId, token)` (part_003 lines 33–51): store the
`ConnectionInfo` record with `createdAt = Date.now()`. The `ws.on('close')`
and `ws.on('error')` callbacks it attaches are embedded separately as
`onSocketClose` and `onSocketError`. -/
def register (st : CMState) (sessionId : String) (ws : WSocket) (userId : Int)
    (token : String) (now : Nat) : CMState :=
  { st with
      connections := mset st.connections sessionId
        { ws := ws, userId := userId, token := token, createdAt := now } }

/-- The `ws.on('close', ...)` callback attached by `register` (part_003 lines
41–44): logs and deletes the session from `connections`. -/
def onSocketClose (st : CMState) (sessionId : String) : CMState :=
  { st with connections := mdel st.connections sessionId }

/-- The `ws.on('error', ...)` callback attached by `register` (part_003 lines
46–48): it only logs; it does not touch `connections`. -/
def onSocketError (st : CMState) (_sessionId : String) : CMState :=
  st

/-- `hasConnection(sessionId)` (part_003 lines 56–58). -/
def hasConnection (st : CMState) (sessionId : String) : Bool :=
  (mget st.connections sessionId).isSome

/-- `getConnection(sessionId)` (part_003 lines 63–65). -/
def getConnection (st : CMState) (sessionId : String) : Option ConnectionInfo :=
  mget st.connections sessionId

/-- `getStats()` (part_003 lines 142–147). -/
def getStats (st : CMState) : Nat × Nat :=
  (st.connections.length, st.pendingRequests.length)

/-- How a `sendRequest` call concludes from the caller's point of view:
a synchronous `throw`, a promise left pending under the fresh request id, or a
promise already rejected because the socket write reported an error. -/
inductive SendOutcome where
  | thrown (msg : String)
  | pending (requestId : String)
  | rejectedSend (requestId : String) (msg : String)
deriving DecidableEq, Repr

/-- `sendRequest(sessionId, action, payload)` (part_003 lines 70–108).
`requestId` stands for the `uuidv4()` value and `now` for the arming instant;
both are inputs of the model. Returns the new state, the outcome, and the
ordered micro-events. Source order: look up the session (throw `客户端未连接`
if absent); check `ws.readyState` (throw `WebSocket 连接已断开` if not OPEN);
arm the timeout; insert the pending entry; call `ws.send` with the serialized
frame — on a write error the callback clears the timer, removes the entry and
rejects with `发送消息失败: <cause>`. -/
def sendRequest (st : CMState) (sessionId : String) (action : String)
    (payload : JValue) (requestId : String) (now : Nat) :
    CMState × SendOutcome × List MicroEvent :=
  match mget st.connections sessionId with
  | none => (st, .thrown "客户端未连接", [])
  | some conn =>
    if conn.ws.readyState ≠ WS_OPEN then
      (st, .thrown "WebSocket 连接已断开", [])
    else
      let tid := st.nextTimer
      let timers :=
        { id := tid, reqId := requestId, armedAt := now,
          delay := st.requestTimeout } :: st.armedTimers
      let pend := mset st.pendingRequests requestId { timer := tid }
      let frame : RequestFrame :=
        { id := requestId, type := "request", action := action, payload := payload }
      match conn.ws.sendError with
      | some cause =>
        ({ st with
            pendingRequests := mdel pend requestId
            armedTimers := clearTimer timers tid
            nextTimer := st.nextTimer + 1 },
         .rejectedSend requestId ("发送消息失败: " ++ cause),
         [.armTimer tid, .insertPending requestId, .sendCall frame,
          .clearTimerEv tid, .removePending requestId,
          .settle requestId (.reject ("发送消息失败: " ++ cause))])
      | none =>
        ({ st with
            connections :=
              mset st.connections sessionId
                { conn with ws := { conn.ws with sent := conn.ws.sent ++ [.request frame] } }
            pendingRequests := pend
            armedTimers := timers
            nextTimer := st.nextTimer + 1 },
         .pending requestId,
         [.armTimer tid, .insertPending requestId, .sendCall frame])

/-- JavaScript `e || d` for `e : string | undefined`: `undefined` and the
empty string are falsy. -/
def jsOrDefault (e : Option String) (d : String) : String :=
  match e with
  | none => d
  | some s => if s = "" then d else s

/-- The response message shape accepted by `handleResponse`
(part_003 line 113): `{ id, success, data?, error? }`. -/
structure ResponseMsg where
  id : String
  success : Bool
  data : Option JValue
  error : Option String
deriving DecidableEq, Repr

/-- `handleResponse(msg)` (part_003 lines 113–130): look up the pending entry
by `msg.id`; if absent, log a warning and return (no state change, nothing
thrown). If present: `clearTimeout`, delete the entry, then resolve with
`msg.data` when `msg.success`, else reject with `new Error(msg.error || '操作失败')`. -/
def handleResponse (st : CMState) (msg : ResponseMsg) :
    CMState × List MicroEvent :=
  match mget st.pendingRequests msg.id with
  | none => (st, [])
  | some pending =>
    ({ st with
        armedTimers := clearTimer st.armedTimers pending.timer
        pendingRequests := mdel st.pendingRequests msg.id },
     [.clearTimerEv pending.timer, .removePending msg.id,
      .settle msg.id
        (if msg.success then .resolve msg.data
         else .reject (jsOrDefault msg.error "操作失败"))])

/-- Whether the timer with handle `tid` is currently armed. -/
def timerArmed (st : CMState) (tid : Nat) : Bool :=
  (findTimer st.armedTimers tid).isSome

/-- The Node runtime firing the timeout armed by `sendRequest` (part_003 lines
84–87) at time `now`. A timer can fire only while still armed (not yet
`clearTimeout`-ed) and only once `now` has reached `armedAt + delay` — the
`setTimeout` contract; otherwise nothing happens. Firing removes the timer
from the armed set and runs the callback: delete the pending entry for the
captured request id and reject with `请求超时`. -/
def fireTimeout (st : CMState) (tid : Nat) (now : Nat) :
    CMState × List MicroEvent :=
  match findTimer st.armedTimers tid with
  | none => (st, [])
  | some t =>
    if now < t.armedAt + t.delay then
      (st, [])
    else
      ({ st with
          armedTimers := clearTimer st.armedTimers tid
          pendingRequests := mdel st.pendingRequests t.reqId },
       [.removePending t.reqId, .settle t.reqId (.reject "请求超时")])

/-! ## Gateway (`OperationWebSocket`, `src/unnamed/part_002` lines 268–382) -/

/-- Result of the axios call in `verifyToken` (part_002 lines 362–367):
either a response body, of which only `data.ret` and `data.data.userid`
matter (absent `userid` modelled as `none`), or a thrown error (non-2xx
status or network failure). -/
inductive HttpResult where
  | ok (ret : Int) (userid : Option Int)
  | failure
deriving DecidableEq, Repr

/-- `verifyToken(token)` (part_002 lines 360–377): returns the user id when
`response.data?.ret === 1` and `response.data?.data?.userid` is truthy
(present and non-zero); any other body yields `null`, and every thrown
error is caught and yields `null` (fail-closed). -/
def verifyToken (r : HttpResult) : Option Int :=
  match r with
  | .failure => none
  | .ok ret userid =>
    match userid with
    | none => none
    | some u => if ret = 1 ∧ u ≠ 0 then some u else none

/-- The welcome frame `{ type: 'connected', session_id, expires_at }` sent on
successful registration (part_002 lines 328–332). -/
structure WelcomeFrame where
  type : String
  session_id : String
  expires_at : Nat
deriving DecidableEq, Repr

/-- How `handleConnection` concludes: socket closed with a status code and
reason, or session registered and the welcome frame sent. -/
inductive ConnOutcome where
  | closedConn (code : Nat) (reason : String)
  | accepted (sessionId : String) (welcome : WelcomeFrame)
deriving DecidableEq, Repr

/-- `handleConnection(ws, req)` (part_002 lines 305–338). `token` is
`url.searchParams.get('token')` (`none` when the query parameter is absent);
`httpResult` the identity endpoint's behaviour; `freshSid` the
`generateSessionId()` value; `now` is `Date.now()`. Source order: `if (!token)`
(absent or empty string — both falsy) close `4001 缺少认证 token`; await
`verifyToken`, on `null` close `4002 认证失败`; otherwise register the session
and send the welcome frame with `expires_at = now + 3600000`. -/
def handleConnection (st : CMState) (token : Option String)
    (httpResult : HttpResult) (freshSid : String) (ws : WSocket) (now : Nat) :
    CMState × ConnOutcome :=
  match token with
  | none => (st, .closedConn 4001 "缺少认证 token")
  | some t =>
    if t = "" then
      (st, .closedConn 4001 "缺少认证 token")
    else
      match verifyToken httpResult with
      | none => (st, .closedConn 4002 "认证失败")
      | some userid =>
        (register st freshSid ws userid t now,
         .accepted freshSid
           { type := "connected", session_id := freshSid,
             expires_at := now + 3600000 })

/-- A decoded inbound frame as `handleMessage` sees it after `JSON.parse`:
`type` is the discriminator (`none` when the parsed object has no `type`
field), the rest are the fields `handleResponse` reads. -/
structure WireMsg where
  type : Option String
  id : String
  success : Bool
  data : Option JValue
  error : Option String
deriving DecidableEq, Repr

/-- Raw inbound data: either bytes that fail `JSON.parse` or a decoded
message. -/
inductive InFrame where
  | malformed
  | ok (m : WireMsg)
deriving DecidableEq, Repr

/-- What `handleMessage` did: dropped a malformed frame (parse error caught
and logged), forwarded a response frame (with the `handleResponse` events),
replied `pong` to a ping, ignored a ping whose session is absent or whose
socket is not open, or logged an unknown discriminator. -/
inductive MsgEffect where
  | droppedMalformed
  | response (events : List MicroEvent)
  | pongSent
  | pingIgnored
  | unknownType (t : Option String)
deriving DecidableEq, Repr

/-- `handleMessage(sessionId, data)` (part_002 lines 340–358): `JSON.parse`
inside `try` — a parse failure is caught and logged, nothing rethrown, no
state change. `type === 'response'` forwards the message to
`connectionManager.handleResponse`; `type === 'ping'` sends `{type: 'pong'}`
back when the session exists and its socket is OPEN; any other type is logged
and ignored. -/
def handleMessage (st : CMState) (sessionId : String) (frame : InFrame) :
    CMState × MsgEffect :=
  match frame with
  | .malformed => (st, .droppedMalformed)
  | .ok m =>
    if m.type = some "response" then
      let r := handleResponse st
        { id := m.id, success := m.success, data := m.data, error := m.error }
      (r.1, .response r.2)
    else if m.type = some "ping" then
      match mget st.connections sessionId with
      | some conn =>
        if conn.ws.readyState = WS_OPEN then
          ({ st with
              connections := mset st.connections sessionId
                { conn with ws := { conn.ws with sent := conn.ws.sent ++ [.pong] } } },
           .pongSent)
        else (st, .pingIgnored)
      | none => (st, .pingIgnored)
    else (st, .unknownType m.type)

/-! ## Concrete fixtures used by witnesses and counterexamples -/

/-- An open socket whose writes succeed. -/
def wsOpen : WSocket := { readyState := WS_OPEN, sent := [], sendError := none }

/-- An open socket whose next write reports the error `boom`. -/
def wsOpenErr : WSocket := { readyState := WS_OPEN, sent := [], sendError := some "boom" }

/-- A manager with session `s1` registered on a healthy open socket. -/
def stConn : CMState := register initCMDefault "s1" wsOpen 42 "tok" 5

/-- A manager with session `s1` registered on a socket whose write fails. -/
def stConnErr : CMState := register initCMDefault "s1" wsOpenErr 42 "tok" 5

/-- A manager with one pending request `r1` and its armed timer `0`. -/
def stPending : CMState :=
  { connections := []
    pendingRequests := [("r1", { timer := 0 })]
    requestTimeout := 30000
    armedTimers := [{ id := 0, reqId := "r1", armedAt := 0, delay := 30000 }]
    nextTimer := 1 }

/-- A manager with session `s1` and two pending requests `r1`, `r2` with armed
timers `0`, `1`. -/
def stPending2 : CMState :=
  { connections :=
      [("s1", { ws := wsOpen, userId := 42, token := "tok", createdAt := 5 })]
    pendingRequests := [("r1", { timer := 0 }), ("r2", { timer := 1 })]
    requestTimeout := 30000
    armedTimers :=
      [{ id := 0, reqId := "r1", armedAt := 0, delay := 30000 },
       { id := 1, reqId := "r2", armedAt := 2, delay := 30000 }]
    nextTimer := 2 }

/-! ## Claims -/

/-- C2: for every session id not present in the registry at call time,
`sendRequest` fails immediately with the "not connected" error (`客户端未连接`)
before any transport attempt: the returned state is exactly the input state
(no timer armed, no pending entry inserted, no frame written to any socket)
and the micro-event trace is empty (no `sendCall`, so no network attempt). -/
theorem c2_not_connected_gate (st : CMState) (sid action : String)
    (payload : JValue) (rid : String) (now : Nat)
    (h : hasConnection st sid = false) :
    sendRequest st sid action payload rid now = (st, .thrown "客户端未连接", []) := by
  have h₁ : mget st.connections sid = none := by
    unfold hasConnection at h
    cases hm : mget st.connections sid <;> simp [hm] at h ⊢
  simp [sendRequest, h₁]

/-- Witness for C2 at a concrete input: the fresh manager has no session
`s1`, and the call fails with `客户端未连接`, leaving the state untouched. -/
theorem c2_gate_witness :
    hasConnection initCMDefault "s1" = false ∧
    sendRequest initCMDefault "s1" "get_page_context" .null "r1" 0 =
      (initCMDefault, .thrown "客户端未连接", []) :=
  ⟨rfl, c2_not_connected_gate initCMDefault "s1" "get_page_context" .null "r1" 0 rfl⟩

/-- C3: when the socket write reports a synchronous error, `sendRequest`
clears the timer and removes the pending entry before rejecting (the
micro-event trace ends with the `settle`, preceded by `clearTimerEv` and
`removePending`), the rejection message is `发送消息失败: <cause>` carrying the
underlying cause, and in the final state the request id has no pending entry
and its timer is no longer armed. -/
theorem c3_send_failure_rollback (st : CMState) (sid action cause : String)
    (payload : JValue) (rid : String) (now : Nat) (conn : ConnectionInfo)
    (hconn : mget st.connections sid = some conn)
    (hopen : conn.ws.readyState = WS_OPEN)
    (hfail : conn.ws.sendError = some cause) :
    sendRequest st sid action payload rid now =
      ({ st with
          pendingRequests := mdel st.pendingRequests rid
          armedTimers := clearTimer st.armedTimers st.nextTimer
          nextTimer := st.nextTimer + 1 },
       .rejectedSend rid ("发送消息失败: " ++ cause),
       [.armTimer st.nextTimer, .insertPending rid,
        .sendCall { id := rid, type := "request", action := action, payload := payload },
        .clearTimerEv st.nextTimer, .removePending rid,
        .settle rid (.reject ("发送消息失败: " ++ cause))]) ∧
    mget (sendRequest st sid action payload rid now).1.pendingRequests rid = none ∧
    timerArmed (sendRequest st sid action payload rid now).1 st.nextTimer = false := by
  refine ⟨?_, ?_, ?_⟩ <;>
    simp [sendRequest, hconn, hopen, hfail, mdel_mset_self, clearTimer,
      timerArmed, findTimer_clearTimer_self, mget_mdel_self]

/-- Witness for C3 at a concrete input: session `s1` sits on a socket whose
write fails with `boom`; the call rejects with `发送消息失败: boom` and rolls
back the pending entry and the timer. -/
theorem c3_rollback_witness :
    mget stConnErr.connections "s1" =
      some { ws := wsOpenErr, userId := 42, token := "tok", createdAt := 5 } ∧
    mget (sendRequest stConnErr "s1" "a" .null "r1" 9).1.pendingRequests "r1" = none ∧
    timerArmed (sendRequest stConnErr "s1" "a" .null "r1" 9).1 0 = false :=
  ⟨rfl,
   (c3_send_failure_rollback stConnErr "s1" "a" "boom" .null "r1" 9
      { ws := wsOpenErr, userId := 42, token := "tok", createdAt := 5 }
      rfl rfl rfl).2.1,
   (c3_send_failure_rollback stConnErr "s1" "a" "boom" .null "r1" 9
      { ws := wsOpenErr, userId := 42, token := "tok", createdAt := 5 }
      rfl rfl rfl).2.2⟩

/-- C4: on the successful path (session present, socket OPEN, write succeeds)
the micro-event trace of `sendRequest` is `armTimer`, then `insertPending`,
then `sendCall` — the pending entry (with the armed timer handle) is inserted
strictly before the frame is written — the final state holds the entry and the
socket holds the frame, and a response for that id arriving immediately on the
post-send state finds its pending entry and resolves with the frame's data. -/
theorem c4_pending_before_send (st : CMState) (sid action : String)
    (payload : JValue) (rid : String) (now : Nat) (conn : ConnectionInfo)
    (d : Option JValue) (e : Option String)
    (hconn : mget st.connections sid = some conn)
    (hopen : conn.ws.readyState = WS_OPEN)
    (hok : conn.ws.sendError = none) :
    sendRequest st sid action payload rid now =
      ({ st with
          connections := mset st.connections sid
            { conn with ws := { conn.ws with sent := conn.ws.sent ++
                [.request { id := rid, type := "request", action := action,
                            payload := payload }] } }
          pendingRequests := mset st.pendingRequests rid { timer := st.nextTimer }
          armedTimers :=
            { id := st.nextTimer, reqId := rid, armedAt := now,
              delay := st.requestTimeout } :: st.armedTimers
          nextTimer := st.nextTimer + 1 },
       .pending rid,
       [.armTimer st.nextTimer, .insertPending rid,
        .sendCall { id := rid, type := "request", action := action, payload := payload }]) ∧
    mget (sendRequest st sid action payload rid now).1.pendingRequests rid =
      some { timer := st.nextTimer } ∧
    (handleResponse (sendRequest st sid action payload rid now).1
        { id := rid, success := true, data := d, error := e }).2 =
      [.clearTimerEv st.nextTimer, .removePending rid, .settle rid (.resolve d)] := by
  refine ⟨?_, ?_, ?_⟩ <;>
    simp [sendRequest, hconn, hopen, hok, handleResponse, mget_mset_self]

/-- Witness for C4 at a concrete input: sending on healthy session `s1`
leaves the entry `r1 ↦ timer 0` pending, and an immediate response settles it
with the response data. -/
theorem c4_pending_witness :
    mget (sendRequest stConn "s1" "a" .null "r1" 9).1.pendingRequests "r1" =
      some { timer := 0 } ∧
    (handleResponse (sendRequest stConn "s1" "a" .null "r1" 9).1
        { id := "r1", success := true, data := some (.num 7), error := none }).2 =
      [.clearTimerEv 0, .removePending "r1", .settle "r1" (.resolve (some (.num 7)))] :=
  ⟨(c4_pending_before_send stConn "s1" "a" .null "r1" 9
      { ws := wsOpen, userId := 42, token := "tok", createdAt := 5 }
      (some (.num 7)) none rfl rfl rfl).2.1,
   (c4_pending_before_send stConn "s1" "a" .null "r1" 9
      { ws := wsOpen, userId := 42, token := "tok", createdAt := 5 }
      (some (.num 7)) none rfl rfl rfl).2.2⟩

/-- C5: the timer armed by a successful `sendRequest` carries exactly the
configured `requestTimeout` delay (constructor default `30000` ms); while the
elapsed time is below `armedAt + delay` the timeout cannot fire (setTimeout
fires no earlier than its delay, and the model lets it fire from the deadline
on — the bounded margin is the runtime scheduler's, not the program's); and
when it fires with no matching response having arrived, it removes precisely
that pending entry and rejects the result with `请求超时`. -/
theorem c5_timeout_behavior (st : CMState) (sid action : String)
    (payload : JValue) (rid : String) (now t₁ t₂ : Nat) (conn : ConnectionInfo)
    (hconn : mget st.connections sid = some conn)
    (hopen : conn.ws.readyState = WS_OPEN)
    (hok : conn.ws.sendError = none)
    (hearly : t₁ < now + st.requestTimeout)
    (hdue : now + st.requestTimeout ≤ t₂) :
    defaultRequestTimeout = 30000 ∧
    initCMDefault.requestTimeout = 30000 ∧
    (∀ d : Nat, (initCM d).requestTimeout = d) ∧
    findTimer (sendRequest st sid action payload rid now).1.armedTimers st.nextTimer =
      some { id := st.nextTimer, reqId := rid, armedAt := now,
             delay := st.requestTimeout } ∧
    fireTimeout (sendRequest st sid action payload rid now).1 st.nextTimer t₁ =
      ((sendRequest st sid action payload rid now).1, []) ∧
    (fireTimeout (sendRequest st sid action payload rid now).1 st.nextTimer t₂).2 =
      [.removePending rid, .settle rid (.reject "请求超时")] ∧
    mget (fireTimeout (sendRequest st sid action payload rid now).1
        st.nextTimer t₂).1.pendingRequests rid = none ∧
    timerArmed (fireTimeout (sendRequest st sid action payload rid now).1
        st.nextTimer t₂).1 st.nextTimer = false := by
  refine ⟨rfl, rfl, fun d => rfl, ?_, ?_, ?_, ?_, ?_⟩ <;>
    simp [sendRequest, hconn, hopen, hok, fireTimeout, findTimer, hearly,
      Nat.not_lt.mpr hdue, mdel_mset_self, mget_mdel_self, timerArmed,
      clearTimer, findTimer_clearTimer_self]

/-- Witness for C5 at a concrete input: after sending on session `s1` at time
9 with the default 30000 ms timeout, the timeout does not fire at 30008
(before the deadline 30009) and does fire at 30009, rejecting `r1` with
`请求超时`. -/
theorem c5_timeout_witness :
    (30008 : Nat) < 9 + stConn.requestTimeout ∧
    9 + stConn.requestTimeout ≤ 30009 ∧
    fireTimeout (sendRequest stConn "s1" "a" .null "r1" 9).1 0 30008 =
      ((sendRequest stConn "s1" "a" .null "r1" 9).1, []) ∧
    (fireTimeout (sendRequest stConn "s1" "a" .null "r1" 9).1 0 30009).2 =
      [.removePending "r1", .settle "r1" (.reject "请求超时")] :=
  ⟨by decide, by decide,
   (c5_timeout_behavior stConn "s1" "a" .null "r1" 9 30008 30009
      { ws := wsOpen, userId := 42, token := "tok", createdAt := 5 }
      rfl rfl rfl (by decide) (by decide)).2.2.2.2.1,
   (c5_timeout_behavior stConn "s1" "a" .null "r1" 9 30008 30009
      { ws := wsOpen, userId := 42, token := "tok", createdAt := 5 }
      rfl rfl rfl (by decide) (by decide)).2.2.2.2.2.1⟩

/-- C1: for a request id with a pending entry and its armed timer (the state a
successful `sendRequest` leaves), exactly one of matching response / timeout
settles the result. A matching `handleResponse` settles it once, removes the
entry and disarms the timer, after which a duplicate response is a no-op
returning the state unchanged and the timer can no longer fire. Symmetrically,
the timeout firing settles it with `请求超时` and removes the entry, after
which a late response is a no-op. And for any id with no pending entry
(never issued, or already settled), `handleResponse` throws nothing and
returns the state completely unchanged. -/
theorem c1_at_most_one_settlement
    (st : CMState) (rid : String) (tid : Nat) (tr : TimerRec)
    (msg msg₂ msg₃ : ResponseMsg) (t t₂ : Nat)
    (hp : mget st.pendingRequests rid = some { timer := tid })
    (ht : findTimer st.armedTimers tid = some tr)
    (hrid : tr.reqId = rid)
    (hid : msg.id = rid) (hid₂ : msg₂.id = rid) (hid₃ : msg₃.id = rid)
    (hdue : tr.armedAt + tr.delay ≤ t₂) :
    handleResponse st msg =
      ({ st with
          armedTimers := clearTimer st.armedTimers tid
          pendingRequests := mdel st.pendingRequests rid },
       [.clearTimerEv tid, .removePending rid,
        .settle rid (if msg.success then .resolve msg.data
          else .reject (jsOrDefault msg.error "操作失败"))]) ∧
    mget (handleResponse st msg).1.pendingRequests rid = none ∧
    timerArmed (handleResponse st msg).1 tid = false ∧
    handleResponse (handleResponse st msg).1 msg₂ =
      ((handleResponse st msg).1, []) ∧
    fireTimeout (handleResponse st msg).1 tid t =
      ((handleResponse st msg).1, []) ∧
    fireTimeout st tid t₂ =
      ({ st with
          armedTimers := clearTimer st.armedTimers tid
          pendingRequests := mdel st.pendingRequests rid },
       [.removePending rid, .settle rid (.reject "请求超时")]) ∧
    mget (fireTimeout st tid t₂).1.pendingRequests rid = none ∧
    handleResponse (fireTimeout st tid t₂).1 msg₃ =
      ((fireTimeout st tid t₂).1, []) ∧
    (∀ (u : CMState) (m : ResponseMsg),
      mget u.pendingRequests m.id = none → handleResponse u m = (u, [])) := by
  refine ⟨?_, ?_, ?_, ?_, ?_, ?_, ?_, ?_, fun u m h => by simp [handleResponse, h]⟩ <;>
    simp [handleResponse, fireTimeout, hid, hid₂, hid₃, hp, ht, hrid,
      Nat.not_lt.mpr hdue, mget_mdel_self, timerArmed,
      findTimer_clearTimer_self]

/-- Witness for C1 at a concrete input: on the one-pending-request manager,
the matching response settles `r1`; replaying the same response afterwards is
a no-op, and the timer can no longer fire even long after the deadline. -/
theorem c1_settlement_witness :
    handleResponse stPending
        { id := "r1", success := true, data := some (.num 1), error := none } =
      ({ stPending with
          armedTimers := clearTimer stPending.armedTimers 0
          pendingRequests := mdel stPending.pendingRequests "r1" },
       [.clearTimerEv 0, .removePending "r1", .settle "r1" (.resolve (some (.num 1)))]) ∧
    handleResponse
        (handleResponse stPending
          { id := "r1", success := true, data := some (.num 1), error := none }).1
        { id := "r1", success := true, data := some (.num 1), error := none } =
      ((handleResponse stPending
          { id := "r1", success := true, data := some (.num 1), error := none }).1, []) ∧
    fireTimeout
        (handleResponse stPending
          { id := "r1", success := true, data := some (.num 1), error := none }).1
        0 99999 =
      ((handleResponse stPending
          { id := "r1", success := true, data := some (.num 1), error := none }).1, []) := by
  have h := c1_at_most_one_settlement stPending "r1" 0
    { id := 0, reqId := "r1", armedAt := 0, delay := 30000 }
    { id := "r1", success := true, data := some (.num 1), error := none }
    { id := "r1", success := true, data := some (.num 1), error := none }
    { id := "r1", success := true, data := some (.num 1), error := none }
    99999 30000 rfl rfl rfl rfl rfl rfl (by decide)
  exact ⟨h.1, h.2.2.2.1, h.2.2.2.2.1⟩

/-- C6 counterexample: the claim says that after the socket emits `error` the
session id is removed from the registry (`hasConnection` false). On the code,
the `error` observer attached by `register` (part_003 lines 46–48) only logs:
after registering `s1` and delivering a socket `error` event, `hasConnection`
still returns `true`, refuting the claim at this concrete input. -/
theorem c6_error_observer_counterexample :
    hasConnection (onSocketError (register initCMDefault "s1" wsOpen 42 "tok" 0) "s1")
      "s1" = true := rfl

/-- C6 (amended): `register` attaches both a `close` and an `error` observer,
but only the `close` observer performs registry cleanup — after the socket
emits `close` the session id is removed (`hasConnection` false, for any prior
state, so the removal is also idempotent), while the `error` observer only
logs and leaves the entire manager state unchanged; cleanup of an errored
socket therefore happens via the `close` event that follows it, not via the
`error` observer itself. -/
theorem c6_close_cleanup (st : CMState) (sid sid₂ : String) (ws : WSocket)
    (uid : Int) (tok : String) (now : Nat) :
    hasConnection (onSocketClose (register st sid ws uid tok now) sid) sid = false ∧
    hasConnection (onSocketClose st sid) sid = false ∧
    onSocketError st sid₂ = st := by
  refine ⟨?_, ?_, rfl⟩ <;>
    simp [hasConnection, onSocketClose, register, mget_mdel_self]

/-- C7 counterexample: the claim says the frame's `error` string is passed
through verbatim for every value including the empty string. On the code
(`msg.error || '操作失败'`, part_003 line 126) the empty string is falsy: a
`success: false` response for pending `r1` carrying `error: ""` rejects with
`操作失败`, not with `""`, refuting the claim at this concrete input. -/
theorem c7_empty_error_counterexample :
    (handleResponse stPending
        { id := "r1", success := false, data := none, error := some "" }).2 =
      [.clearTimerEv 0, .removePending "r1", .settle "r1" (.reject "操作失败")] ∧
    ("操作失败" : String) ≠ "" :=
  ⟨rfl, by decide⟩

/-- C7 (amended): for a matching pending entry, `handleResponse` disarms the
timer and removes the entry first (the `settle` is the last micro-event), then
on `success: false` rejects with the frame's `error` string verbatim whenever
that string is present and non-empty; an absent or empty `error` is replaced
by the default `操作失败`. On `success: true` it resolves with the frame's
`data`. -/
theorem c7_error_passthrough_amended (st : CMState) (msg : ResponseMsg)
    (p : PendingRequest)
    (hp : mget st.pendingRequests msg.id = some p) :
    handleResponse st msg =
      ({ st with
          armedTimers := clearTimer st.armedTimers p.timer
          pendingRequests := mdel st.pendingRequests msg.id },
       [.clearTimerEv p.timer, .removePending msg.id,
        .settle msg.id (if msg.success then .resolve msg.data
          else .reject (jsOrDefault msg.error "操作失败"))]) ∧
    (∀ s : String, msg.error = some s → s ≠ "" →
      jsOrDefault msg.error "操作失败" = s) ∧
    ((msg.error = none ∨ msg.error = some "") →
      jsOrDefault msg.error "操作失败" = "操作失败") := by
  refine ⟨by simp [handleResponse, hp], ?_, ?_⟩
  · intro s hs hne
    simp [jsOrDefault, hs, hne]
  · rintro (h | h) <;> simp [jsOrDefault, h]

/-- Witness for C7 (amended) at a concrete input: a failure response for
pending `r1` with the non-empty error `nope` rejects with exactly `nope`. -/
theorem c7_passthrough_witness :
    (handleResponse stPending
        { id := "r1", success := false, data := none, error := some "nope" }).2 =
      [.clearTimerEv 0, .removePending "r1", .settle "r1" (.reject "nope")] := by
  have h := c7_error_passthrough_amended stPending
    { id := "r1", success := false, data := none, error := some "nope" }
    { timer := 0 } rfl
  have h₂ := h.2.1 "nope" rfl (by decide)
  rw [h.1]
  simp [h₂]

/-- C8: the gateway registers a session and sends the welcome frame
`{type: 'connected', session_id, expires_at}` only when verification succeeds.
A missing (or empty, both falsy) `token` query parameter closes with
`4001 缺少认证 token`; a failed verification closes with `4002 认证失败` —
distinct code and distinct reason — and in both rejection paths the state is
returned unchanged: no session registered, no welcome frame. Verification is
fail-closed: a thrown axios error and any body whose `ret` is not `1` yield
`null`. On success the session is registered (`hasConnection` true) and the
welcome frame carries the fresh session id and `expires_at = now + 3600000`. -/
theorem c8_auth_gate (st : CMState) (hr : HttpResult) (sid : String)
    (ws : WSocket) (now : Nat) :
    (∀ tok : Option String, tok = none ∨ tok = some "" →
      handleConnection st tok hr sid ws now =
        (st, .closedConn 4001 "缺少认证 token")) ∧
    (∀ t : String, t ≠ "" → verifyToken hr = none →
      handleConnection st (some t) hr sid ws now =
        (st, .closedConn 4002 "认证失败")) ∧
    (∀ (t : String) (u : Int), t ≠ "" → verifyToken hr = some u →
      handleConnection st (some t) hr sid ws now =
        (register st sid ws u t now,
         .accepted sid
           { type := "connected", session_id := sid,
             expires_at := now + 3600000 }) ∧
      hasConnection (register st sid ws u t now) sid = true) ∧
    (4001 : Nat) ≠ 4002 ∧
    ("缺少认证 token" : String) ≠ "认证失败" ∧
    verifyToken .failure = none ∧
    (∀ (ret : Int) (uo : Option Int), ret ≠ 1 → verifyToken (.ok ret uo) = none) := by
  refine ⟨?_, ?_, ?_, by decide, by decide, rfl, ?_⟩
  · rintro tok (rfl | rfl) <;> simp [handleConnection]
  · intro t ht hv
    simp [handleConnection, ht, hv]
  · intro t u ht hv
    exact ⟨by simp [handleConnection, ht, hv],
      by simp [hasConnection, register, mget_mset_self]⟩
  · intro ret uo hret
    cases uo <;> simp [verifyToken, hret]

/-- Witness for C8 at concrete inputs: no token → `4001`; valid token but the
identity endpoint unreachable → `4002` with nothing registered; valid token
and a `ret = 1` body with user id `42` → session registered and welcome frame
sent. -/
theorem c8_auth_witness :
    handleConnection initCMDefault none .failure "x" wsOpen 0 =
      (initCMDefault, .closedConn 4001 "缺少认证 token") ∧
    handleConnection initCMDefault (some "tok") .failure "x" wsOpen 0 =
      (initCMDefault, .closedConn 4002 "认证失败") ∧
    handleConnection initCMDefault (some "tok") (.ok 1 (some 42)) "x" wsOpen 7 =
      (register initCMDefault "x" wsOpen 42 "tok" 7,
       .accepted "x"
         { type := "connected", session_id := "x", expires_at := 7 + 3600000 }) :=
  ⟨(c8_auth_gate initCMDefault .failure "x" wsOpen 0).1 none (Or.inl rfl),
   (c8_auth_gate initCMDefault .failure "x" wsOpen 0).2.1 "tok" (by decide) rfl,
   ((c8_auth_gate initCMDefault (.ok 1 (some 42)) "x" wsOpen 7).2.2.1 "tok" 42
      (by decide) rfl).1⟩

/-- C9: a frame that fails JSON parsing is caught and dropped — the message
handler returns normally with the state (registry, pending table, sockets)
completely unchanged — and a parsed frame whose `type` discriminator is
neither `response` nor `ping` (including a missing `type` field) is logged as
unknown and otherwise ignored, again returning the state unchanged and
throwing nothing; in neither case is the connection closed. -/
theorem c9_protocol_noise_safe (st : CMState) (sid : String) (m : WireMsg)
    (h₁ : m.type ≠ some "response") (h₂ : m.type ≠ some "ping") :
    handleMessage st sid .malformed = (st, .droppedMalformed) ∧
    handleMessage st sid (.ok m) = (st, .unknownType m.type) :=
  ⟨rfl, by simp [handleMessage, h₁, h₂]⟩

/-- Witness for C9 at a concrete input: on a manager with live state, a
malformed frame and a frame with discriminator `bogus` both leave the state
untouched. -/
theorem c9_noise_witness :
    handleMessage stPending2 "s1" .malformed = (stPending2, .droppedMalformed) ∧
    handleMessage stPending2 "s1"
        (.ok { type := some "bogus", id := "r1", success := true,
               data := none, error := none }) =
      (stPending2, .unknownType (some "bogus")) :=
  c9_protocol_noise_safe stPending2 "s1"
    { type := some "bogus", id := "r1", success := true, data := none, error := none }
    (by decide) (by decide)

/-- C10: when an armed, due timer fires, the only state change is the removal
of its request id from the pending table plus the `reject 请求超时` settlement
of that result: the session registry — which owns every socket, so no socket
is closed or written, and no timeout notice reaches the client — is unchanged,
every other request id's pending entry is unchanged, every other timer's
armed status is unchanged, and the configured timeout is unchanged. -/
theorem c10_timeout_frame_effect (st : CMState) (tid : Nat) (tr : TimerRec)
    (t : Nat)
    (ht : findTimer st.armedTimers tid = some tr)
    (hdue : tr.armedAt + tr.delay ≤ t) :
    fireTimeout st tid t =
      ({ st with
          armedTimers := clearTimer st.armedTimers tid
          pendingRequests := mdel st.pendingRequests tr.reqId },
       [.removePending tr.reqId, .settle tr.reqId (.reject "请求超时")]) ∧
    (fireTimeout st tid t).1.connections = st.connections ∧
    mget (fireTimeout st tid t).1.pendingRequests tr.reqId = none ∧
    (∀ rid₂ : String, rid₂ ≠ tr.reqId →
      mget (fireTimeout st tid t).1.pendingRequests rid₂ =
        mget st.pendingRequests rid₂) ∧
    (∀ tid₂ : Nat, tid₂ ≠ tid →
      timerArmed (fireTimeout st tid t).1 tid₂ = timerArmed st tid₂) ∧
    (fireTimeout st tid t).1.requestTimeout = st.requestTimeout := by
  refine ⟨?_, ?_, ?_, ?_, ?_, ?_⟩
  · simp [fireTimeout, ht, Nat.not_lt.mpr hdue]
  · simp [fireTimeout, ht, Nat.not_lt.mpr hdue]
  · simp [fireTimeout, ht, Nat.not_lt.mpr hdue, mget_mdel_self]
  · intro rid₂ h
    simp [fireTimeout, ht, Nat.not_lt.mpr hdue, mget_mdel_ne _ _ _ h]
  · intro tid₂ h
    simp [fireTimeout, ht, Nat.not_lt.mpr hdue, timerArmed,
      findTimer_clearTimer_ne _ _ _ h]
  · simp [fireTimeout, ht, Nat.not_lt.mpr hdue]

/-- Witness for C10 at a concrete input: firing `r1`'s due timer on the
two-request manager leaves the registry, `r2`'s pending entry and `r2`'s
timer untouched while removing exactly `r1`. -/
theorem c10_frame_witness :
    (fireTimeout stPending2 0 40000).1.connections = stPending2.connections ∧
    mget (fireTimeout stPending2 0 40000).1.pendingRequests "r1" = none ∧
    mget (fireTimeout stPending2 0 40000).1.pendingRequests "r2" =
      mget stPending2.pendingRequests "r2" ∧
    timerArmed (fireTimeout stPending2 0 40000).1 1 = timerArmed stPending2 1 :=
  ⟨(c10_timeout_frame_effect stPending2 0
      { id := 0, reqId := "r1", armedAt := 0, delay := 30000 } 40000
      rfl (by decide)).2.1,
   (c10_timeout_frame_effect stPending2 0
      { id := 0, reqId := "r1", armedAt := 0, delay := 30000 } 40000
      rfl (by decide)).2.2.1,
   (c10_timeout_frame_effect stPending2 0
      { id := 0, reqId := "r1", armedAt := 0, delay := 30000 } 40000
      rfl (by decide)).2.2.2.1 "r2" (by decide),
   (c10_timeout_frame_effect stPending2 0
      { id := 0, reqId := "r1", armedAt := 0, delay := 30000 } 40000
      rfl (by decide)).2.2.2.2.1 1 (by decide)⟩
